import Mathlib

/-!
Verification of the ROS workspace auto-build script (src/auto_build.py).

The script is boundary glue: it checks the environment, loads a YAML config,
installs system packages, and invokes an external build command. We embed it
shallowly: the outcomes of the external world (file presence, file modes,
config contents, exit statuses of each external command) form a `World`
record, and each method of `ROSWorkspaceManager` becomes a pure function from
the world to a trace of observable events (log lines, chmod, subprocess
invocations) together with its return value. `sys.exit` is modelled by the
`RunResult.exited` constructor, which propagates to the process exit code
computed by `main` (SystemExit is not caught by the `except Exception`
handler in the source, so it reaches the interpreter). A `KeyboardInterrupt`
is modelled as a flag on `main`.
-/

namespace AutoBuild

/-- Python logging levels used by the script. -/
inductive LogLevel
  | info
  | warning
  | error
deriving DecidableEq

/-- Observable effects of a run: log lines, the chmod on prepare.sh, each
`subprocess.run` invocation (with its argv), and the opening of the config
file for reading. -/
inductive Event
  | log (lvl : LogLevel) (msg : String)
  | chmod (path : String) (mode : Nat)
  | run (argv : List String)
  | readConfigFile
deriving DecidableEq

/-- The state of `ros-config.yml` as seen by `read_packages_config`:
absent, present but rejected by `yaml.safe_load` with a `YAMLError`,
present but failing with some other exception while reading, or parsed
as a YAML mapping. Only list-of-string values matter to the script
(it reads one key holding the package list), so a mapping is a list of
key/list-of-string entries. -/
inductive ConfigFile
  | missing
  | unparsable
  | readError
  | mapping (entries : List (String × List String))
deriving DecidableEq

/-- Everything outside the script that determines a run: which sibling files
exist, the mode bits of prepare.sh, the parse outcome of the config, and
whether each external command exits with status zero. -/
structure World where
  prepareExists : Bool
  prepareMode : Nat
  envExists : Bool
  config : ConfigFile
  aptUpdateOk : Bool
  aptInstallOk : Bool
  rosdepUpdateOk : Bool
  rosdepInstallOk : Bool
  colconBuildOk : Bool
deriving DecidableEq

/-- `config.get(key, default)` on the embedded YAML mapping. -/
def dictGet (entries : List (String × List String)) (key : String)
    (dflt : List String) : List String :=
  match entries.find? (fun p => p.1 == key) with
  | some p => p.2
  | none => dflt

/-- Either the process has terminated via `sys.exit code`, or the function
returned a value. -/
inductive RunResult (α : Type)
  | exited (code : Nat)
  | ok (a : α)
deriving DecidableEq

/-- The argv of the dependency-sync invocation in `build_ws`. -/
def rosdepUpdateCmd : List String :=
  ["bash", "-c", "source prepare.sh && rosdep update"]

/-- The argv of the dependency-install invocation in `build_ws`. -/
def rosdepInstallCmd : List String :=
  ["bash", "-c", "source prepare.sh && rosdep install --from-paths src --ignore-src -r -y"]

/-- The argv of the build invocation in `build_ws`. -/
def colconBuildCmd : List String :=
  ["bash", "-c", "source prepare.sh && colcon build --symlink-install"]

/-- `ROSWorkspaceManager.check_environment`: fails when prepare.sh is absent;
otherwise makes prepare.sh executable when no execute bit is set, warns when
.env is absent, and succeeds. The second component is the resulting mode of
prepare.sh (the frame effect of the chmod). -/
def check_environment (w : World) : List Event × Nat × Bool :=
  if w.prepareExists = false then
    ([Event.log .error "prepare.sh not found! This script is required for environment setup."],
     w.prepareMode, false)
  else
    let execPart :=
      if w.prepareMode &&& 0o111 = 0 then
        ([Event.log .info "Making prepare.sh executable...",
          Event.chmod "prepare.sh" 0o755], (0o755 : Nat))
      else (([] : List Event), w.prepareMode)
    let envEvs :=
      if w.envExists = false then
        [Event.log .warning ".env file not found!",
         Event.log .info "Please copy .templates/example.env to .env and configure it.",
         Event.log .info "Using default environment from prepare.sh..."]
      else [Event.log .info "Found .env file for environment configuration"]
    (execPart.1 ++ envEvs, execPart.2, true)

/-- `ROSWorkspaceManager.read_packages_config`: exits with code 1 when the
file is missing, when `yaml.safe_load` raises `YAMLError`, or when any other
exception occurs while reading; otherwise returns
`config.get("official-packages", [])`. The existence check precedes the
open, so the missing case emits no `readConfigFile` event. -/
def read_packages_config (w : World) : List Event × RunResult (List String) :=
  match w.config with
  | .missing =>
      ([Event.log .error "Error: ros-config.yml not found!"], .exited 1)
  | .unparsable =>
      ([Event.readConfigFile, Event.log .error "Error parsing ros-config.yml"], .exited 1)
  | .readError =>
      ([Event.readConfigFile, Event.log .error "Error reading config file"], .exited 1)
  | .mapping entries =>
      let pkgs := dictGet entries "official-packages" []
      ([Event.readConfigFile,
        Event.log .info ("Loaded " ++ toString pkgs.length ++ " official packages from config")],
       .ok pkgs)

/-- `ROSWorkspaceManager.install_official_packages`: returns True at once on
an empty list; otherwise runs `sudo apt update` and then
`sudo apt install -y` with the package names appended, both inside one
try block, so a failing update skips the install and yields False. -/
def install_official_packages (w : World) (pkgs : List String) : List Event × Bool :=
  if pkgs.isEmpty then
    ([Event.log .info "No official packages to install"], true)
  else
    let header := [Event.log .info
      ("Installing " ++ toString pkgs.length ++ " official packages...")]
    let updateEv := [Event.run ["sudo", "apt", "update"]]
    if w.aptUpdateOk = false then
      (header ++ updateEv ++ [Event.log .error "Failed to install official packages"], false)
    else
      let installEv := [Event.run (["sudo", "apt", "install", "-y"] ++ pkgs)]
      if w.aptInstallOk = false then
        (header ++ updateEv ++ installEv ++
          [Event.log .error "Failed to install official packages"], false)
      else
        (header ++ updateEv ++ installEv ++
          [Event.log .info "Official packages installed successfully"], true)

/-- `ROSWorkspaceManager.build_ws`: `rosdep update` and `rosdep install`
share one try block whose handler only logs a warning, so a failing sync
skips the install; the build invocation has its own try block, returning
True on success and logging an error and returning False on failure. -/
def build_ws (w : World) : List Event × Bool :=
  let depEvs :=
    [Event.log .info "Installing workspace dependencies...", Event.run rosdepUpdateCmd] ++
    (if w.rosdepUpdateOk = false then
       [Event.log .warning "Failed to install some dependencies"]
     else
       [Event.run rosdepInstallCmd] ++
       (if w.rosdepInstallOk = false then
          [Event.log .warning "Failed to install some dependencies"]
        else
          [Event.log .info "Dependencies installed successfully"]))
  let buildEvs := [Event.log .info "Building ROS workspace...", Event.run colconBuildCmd]
  if w.colconBuildOk then
    (depEvs ++ buildEvs ++ [Event.log .info "Workspace built successfully"], true)
  else
    (depEvs ++ buildEvs ++ [Event.log .error "Failed to build workspace"], false)

/-- `ROSWorkspaceManager.setup_workspace`: returns False (`some false`) when
the environment check fails; otherwise reads the config (whose `sys.exit`
propagates), calls the installer and the build while discarding both boolean
results, logs the completion lines unconditionally, and returns None
(`none`), exactly as the source does. -/
def setup_workspace (w : World) : List Event × RunResult (Option Bool) :=
  let start := [Event.log .info "Setting up ROS workspace..."]
  let env := check_environment w
  if env.2.2 = false then
    (start ++ env.1 ++ [Event.log .error "Environment check failed!"], .ok (some false))
  else
    let cfg := read_packages_config w
    match cfg.2 with
    | .exited c => (start ++ env.1 ++ cfg.1, .exited c)
    | .ok pkgs =>
      let inst := install_official_packages w pkgs
      let bws := build_ws w
      (start ++ env.1 ++ cfg.1 ++ inst.1 ++ bws.1 ++
        [Event.log .info "Workspace setup completed successfully!",
         Event.log .info "Custom packages are managed via git submodules",
         Event.log .info "To use the workspace, run: source prepare.sh"], .ok none)

/-- `main`: a keyboard interruption exits with code 1; a `sys.exit` raised
inside `setup_workspace` passes through the `except Exception` handler
untouched and becomes the process exit code; otherwise `main` ignores the
value returned by `setup_workspace` and the process exits with code 0. -/
def main (w : World) (interrupted : Bool) : List Event × Nat :=
  if interrupted then
    ([Event.log .info "Operation cancelled by user"], 1)
  else
    match setup_workspace w with
    | (evs, .exited c) => (evs, c)
    | (evs, .ok _) => (evs, 0)

/-- Is this event a subprocess invocation? -/
def Event.isRun : Event → Bool
  | .run _ => true
  | _ => false

/-- Is this event the package-manager update invocation? -/
def isAptUpdateEvent : Event → Bool
  | .run argv => argv == ["sudo", "apt", "update"]
  | _ => false

/-- Is this event a package-manager install invocation (any package list)? -/
def isAptInstallEvent : Event → Bool
  | .run argv => argv.take 4 == ["sudo", "apt", "install", "-y"]
  | _ => false

/-- Is this event a package-manager invocation of either kind? -/
def isAptEvent (e : Event) : Bool := isAptUpdateEvent e || isAptInstallEvent e

/-- Is this event the chmod on prepare.sh? -/
def isChmodEvent : Event → Bool
  | .chmod _ _ => true
  | _ => false

/-- A world where the environment and the config are fine, both apt
invocations and both rosdep invocations succeed, and only the colcon build
command exits with a nonzero status. -/
def wBuildFail : World :=
  ⟨true, 0o755, true, .mapping [("official-packages", ["a", "b"])], true, true, true, true, false⟩

/-- A world where everything is fine except that the dependency-sync command
(rosdep update) exits with a nonzero status. -/
def wSyncFail : World :=
  ⟨true, 0o755, true, .mapping [("official-packages", [])], true, true, false, true, true⟩

/-- A world where both prepare.sh and ros-config.yml are absent. -/
def wNoPrep : World := ⟨false, 0, false, .missing, true, true, true, true, true⟩

/-- When prepare.sh exists the environment check succeeds. -/
theorem check_environment_ok (w : World) (hp : w.prepareExists = true) :
    (check_environment w).2.2 = true := by
  unfold check_environment
  simp [hp]

/-- The environment check emits no package-manager invocation. -/
theorem check_environment_apt_free (w : World) :
    (check_environment w).1.filter isAptEvent = [] := by
  unfold check_environment
  by_cases hp : w.prepareExists = false <;>
    by_cases hm : w.prepareMode &&& 0o111 = 0 <;>
      by_cases he : w.envExists = false <;>
        simp [hp, hm, he, isAptEvent, isAptUpdateEvent, isAptInstallEvent]

/-- The environment check emits no subprocess invocation at all. -/
theorem check_environment_run_free (w : World) :
    (check_environment w).1.filter Event.isRun = [] := by
  unfold check_environment
  by_cases hp : w.prepareExists = false <;>
    by_cases hm : w.prepareMode &&& 0o111 = 0 <;>
      by_cases he : w.envExists = false <;>
        simp [hp, hm, he, Event.isRun]

/-- The build step emits no package-manager invocation. -/
theorem build_ws_apt_free (w : World) :
    (build_ws w).1.filter isAptEvent = [] := by
  unfold build_ws
  by_cases hu : w.rosdepUpdateOk = false <;>
    by_cases hi : w.rosdepInstallOk = false <;>
      by_cases hb : w.colconBuildOk = true <;>
        simp [hu, hi, hb, isAptEvent, isAptUpdateEvent, isAptInstallEvent,
          rosdepUpdateCmd, rosdepInstallCmd, colconBuildCmd]

/-- The build step always invokes the colcon build command, whatever the
outcomes of the rosdep commands. -/
theorem build_ws_colcon_invoked (w : World) :
    Event.run colconBuildCmd ∈ (build_ws w).1 := by
  unfold build_ws
  by_cases hu : w.rosdepUpdateOk = false <;>
    by_cases hi : w.rosdepInstallOk = false <;>
      by_cases hb : w.colconBuildOk = true <;>
        simp [hu, hi, hb]

/-- On a parsed mapping, reading the config returns the value of the
official-packages key (defaulting to the empty list). -/
theorem read_packages_config_mapping (w : World) (m : List (String × List String))
    (hc : w.config = .mapping m) :
    read_packages_config w =
      ([Event.readConfigFile,
        Event.log .info ("Loaded " ++ toString (dictGet m "official-packages" []).length
          ++ " official packages from config")],
       .ok (dictGet m "official-packages" [])) := by
  unfold read_packages_config
  simp [hc]

/-- When prepare.sh exists and the config parses, the setup trace is the
concatenation of the traces of the four steps plus the completion log lines,
and the returned value is None. -/
theorem setup_workspace_trace (w : World) (m : List (String × List String))
    (hp : w.prepareExists = true) (hc : w.config = .mapping m) :
    setup_workspace w =
      ([Event.log .info "Setting up ROS workspace..."] ++ (check_environment w).1 ++
        (read_packages_config w).1 ++
        (install_official_packages w (dictGet m "official-packages" [])).1 ++
        (build_ws w).1 ++
        [Event.log .info "Workspace setup completed successfully!",
         Event.log .info "Custom packages are managed via git submodules",
         Event.log .info "To use the workspace, run: source prepare.sh"], .ok none) := by
  unfold setup_workspace
  simp [check_environment_ok w hp, read_packages_config_mapping w m hc]

/-- Log events are never package-manager invocations. -/
theorem isAptEvent_log (lvl : LogLevel) (msg : String) :
    isAptEvent (Event.log lvl msg) = false := rfl

/-- Chmod events are never package-manager invocations. -/
theorem isAptEvent_chmod (p : String) (mode : Nat) :
    isAptEvent (Event.chmod p mode) = false := rfl

/-- The config-read event is not a package-manager invocation. -/
theorem isAptEvent_readConfigFile : isAptEvent Event.readConfigFile = false := rfl

/-- The apt update invocation is a package-manager invocation. -/
theorem isAptEvent_update : isAptEvent (Event.run ["sudo", "apt", "update"]) = true := by decide

/-- The apt install invocation for packages a and b is a package-manager
invocation. -/
theorem isAptEvent_install_ab :
    isAptEvent (Event.run ["sudo", "apt", "install", "-y", "a", "b"]) = true := by decide

/-- Log events are never install invocations. -/
theorem isAptInstallEvent_log (lvl : LogLevel) (msg : String) :
    isAptInstallEvent (Event.log lvl msg) = false := rfl

/-- The apt update invocation is not an install invocation. -/
theorem isAptInstallEvent_update :
    isAptInstallEvent (Event.run ["sudo", "apt", "update"]) = false := by decide

/-- Claim C1: the spec says the process exit code is 1 on any fatal error,
build failure included. In the code, `build_ws` returns False on a failed
build, but `setup_workspace` discards that value and `main` discards the
value of `setup_workspace`, so a run whose build command fails logs the
error yet exits with code 0. This theorem evaluates the embedding at such a
run: the build step reports failure, the error line is logged, and the
process exit code is 0, contradicting the claim. -/
theorem c1_build_failure_exit_code_zero :
    (build_ws wBuildFail).2 = false ∧
      Event.log .error "Failed to build workspace" ∈ (main wBuildFail false).1 ∧
      (main wBuildFail false).2 = 0 := by decide

/-- Claim C2: the spec says that on a failed build the top-level
`setup_workspace` reports failure as its result. In the code it discards
the False returned by `build_ws`, logs the completion line, and returns
None, as on success; only the error log and the unaffected earlier-step
results match the claim. This theorem evaluates the embedding at a run
whose build fails: `build_ws` returns False, the error is logged, yet
`setup_workspace` returns None and logs the success line, while the
installer step still reports True. -/
theorem c2_setup_workspace_discards_build_failure :
    (build_ws wBuildFail).2 = false ∧
      Event.log .error "Failed to build workspace" ∈ (setup_workspace wBuildFail).1 ∧
      (setup_workspace wBuildFail).2 = RunResult.ok none ∧
      Event.log .info "Workspace setup completed successfully!" ∈ (setup_workspace wBuildFail).1 ∧
      (install_official_packages wBuildFail ["a", "b"]).2 = true := by decide

/-- Claim C3, counterexample: the claim says that when the dependency sync
command (rosdep update) fails, the dependency install command is still
invoked. At a concrete world where only rosdep update fails, the trace of
`build_ws` contains no rosdep install invocation, refuting the claim. -/
theorem c3_sync_failure_skips_install_counterexample :
    wSyncFail.rosdepUpdateOk = false ∧
      Event.run rosdepInstallCmd ∉ (build_ws wSyncFail).1 := by decide

/-- Claim C3, amended: dependency and installation failures do not abort the
run, but when the dependency sync command fails the dependency install
command is skipped (both share one exception handler, which logs a warning),
while the build step is still attempted and the run completes. -/
theorem c3_sync_failure_skips_install_build_attempted (w : World)
    (m : List (String × List String))
    (hp : w.prepareExists = true) (hc : w.config = ConfigFile.mapping m)
    (hu : w.rosdepUpdateOk = false) :
    Event.run rosdepInstallCmd ∉ (build_ws w).1 ∧
      Event.log .warning "Failed to install some dependencies" ∈ (build_ws w).1 ∧
      Event.run colconBuildCmd ∈ (setup_workspace w).1 ∧
      (setup_workspace w).2 = RunResult.ok none := by
  refine ⟨?_, ?_, ?_, ?_⟩
  · unfold build_ws
    cases hb : w.colconBuildOk <;> simp [hu, hb] <;> decide
  · unfold build_ws
    cases hb : w.colconBuildOk <;> simp [hu, hb]
  · rw [setup_workspace_trace w m hp hc]
    simp [build_ws_colcon_invoked w]
  · rw [setup_workspace_trace w m hp hc]

/-- Witness for claim C3 at the concrete world where only rosdep update
fails. -/
theorem c3_witness :
    Event.run rosdepInstallCmd ∉ (build_ws wSyncFail).1 ∧
      Event.log .warning "Failed to install some dependencies" ∈ (build_ws wSyncFail).1 ∧
      Event.run colconBuildCmd ∈ (setup_workspace wSyncFail).1 ∧
      (setup_workspace wSyncFail).2 = RunResult.ok none :=
  c3_sync_failure_skips_install_build_attempted wSyncFail [("official-packages", [])]
    rfl rfl rfl

/-- Claim C4, counterexample: the claim quantifies over every workspace in
which ros-config.yml is missing or unparsable, but when prepare.sh is also
missing the run aborts in the environment check and the process exits with
code 0, not 1. -/
theorem c4_missing_config_without_prepare_exits_zero :
    wNoPrep.config = ConfigFile.missing ∧ (main wNoPrep false).2 = 0 := by decide

/-- Claim C4, amended: for every workspace in which prepare.sh exists and
ros-config.yml is missing or contains unparsable YAML, the run terminates
with exit code 1, emits an error log, and invokes no subprocess at all, so
in particular no installation or build subprocess. -/
theorem c4_bad_config_exits_one (w : World)
    (hp : w.prepareExists = true)
    (hc : w.config = ConfigFile.missing ∨ w.config = ConfigFile.unparsable) :
    (main w false).2 = 1 ∧
      (∃ msg, Event.log .error msg ∈ (main w false).1) ∧
      (main w false).1.filter Event.isRun = [] := by
  have hok := check_environment_ok w hp
  have hrun := check_environment_run_free w
  rcases hc with hc | hc <;>
    unfold main setup_workspace <;>
      simp [hok, read_packages_config, hc, hrun, Event.isRun]

/-- Witness for claim C4 at a workspace with prepare.sh present and the
config file missing. -/
theorem c4_witness :
    (main ⟨true, 0o755, true, .missing, true, true, true, true, true⟩ false).2 = 1 ∧
      (∃ msg, Event.log .error msg ∈
        (main ⟨true, 0o755, true, .missing, true, true, true, true, true⟩ false).1) ∧
      (main ⟨true, 0o755, true, .missing, true, true, true, true, true⟩ false).1.filter
        Event.isRun = [] :=
  c4_bad_config_exits_one ⟨true, 0o755, true, .missing, true, true, true, true, true⟩
    rfl (Or.inl rfl)

/-- Claim C5: for every valid config whose package list is a, b, and a run
that reaches the installer with a succeeding package-manager update (the
failing-update case is claim C10), the package-manager invocations of the
whole run are exactly one update followed by one install carrying both
names. -/
theorem c5_install_invoked_once_after_update (w : World)
    (m : List (String × List String))
    (hp : w.prepareExists = true) (hc : w.config = ConfigFile.mapping m)
    (hm : dictGet m "official-packages" [] = ["a", "b"])
    (hu : w.aptUpdateOk = true) :
    ((main w false).1.filter isAptEvent) =
      [Event.run ["sudo", "apt", "update"],
       Event.run ["sudo", "apt", "install", "-y", "a", "b"]] := by
  unfold main
  rw [setup_workspace_trace w m hp hc, read_packages_config_mapping w m hc, hm]
  cases hi : w.aptInstallOk <;>
    simp [install_official_packages, hu, hi, List.filter_append,
      check_environment_apt_free, build_ws_apt_free, isAptEvent_log,
      isAptEvent_readConfigFile, isAptEvent_update, isAptEvent_install_ab]

/-- Witness for claim C5 at a concrete world whose config lists exactly the
packages a and b. -/
theorem c5_witness :
    ((main ⟨true, 0o644, true, .mapping [("official-packages", ["a", "b"])],
        true, true, true, true, true⟩ false).1.filter isAptEvent) =
      [Event.run ["sudo", "apt", "update"],
       Event.run ["sudo", "apt", "install", "-y", "a", "b"]] :=
  c5_install_invoked_once_after_update
    ⟨true, 0o644, true, .mapping [("official-packages", ["a", "b"])], true, true, true, true, true⟩
    [("official-packages", ["a", "b"])] rfl rfl (by decide) rfl

/-- Claim C6: for every valid config whose package list is empty, the run
performs no package-manager invocation at all and still reaches the build
step, invoking the colcon build command. -/
theorem c6_empty_list_skips_installer (w : World)
    (m : List (String × List String))
    (hp : w.prepareExists = true) (hc : w.config = ConfigFile.mapping m)
    (hm : dictGet m "official-packages" [] = []) :
    ((main w false).1.filter isAptEvent = []) ∧
      Event.run colconBuildCmd ∈ (main w false).1 := by
  unfold main
  rw [setup_workspace_trace w m hp hc, read_packages_config_mapping w m hc, hm]
  constructor
  · simp [List.filter_append, check_environment_apt_free, build_ws_apt_free,
      install_official_packages, isAptEvent_log, isAptEvent_readConfigFile]
  · simp [build_ws_colcon_invoked w]

/-- Witness for claim C6 at a concrete world whose config holds an empty
package list. -/
theorem c6_witness :
    ((main ⟨true, 0o755, false, .mapping [("official-packages", [])],
        true, true, true, true, true⟩ false).1.filter isAptEvent = []) ∧
      Event.run colconBuildCmd ∈
        (main ⟨true, 0o755, false, .mapping [("official-packages", [])],
          true, true, true, true, true⟩ false).1 :=
  c6_empty_list_skips_installer
    ⟨true, 0o755, false, .mapping [("official-packages", [])], true, true, true, true, true⟩
    [("official-packages", [])] rfl rfl (by decide)

/-- Claim C7: when prepare.sh is missing, `setup_workspace` logs the error
and returns False before anything else happens: its trace contains no
subprocess invocation and no config read. -/
theorem c7_missing_prepare_aborts (w : World) (hp : w.prepareExists = false) :
    (setup_workspace w).2 = RunResult.ok (some false) ∧
      Event.log .error "prepare.sh not found! This script is required for environment setup."
        ∈ (setup_workspace w).1 ∧
      (setup_workspace w).1.filter Event.isRun = [] ∧
      Event.readConfigFile ∉ (setup_workspace w).1 := by
  unfold setup_workspace check_environment
  simp [hp, Event.isRun]

/-- Witness for claim C7 at a concrete world without prepare.sh. -/
theorem c7_witness :
    (setup_workspace ⟨false, 0, true, .mapping [], true, true, true, true, true⟩).2 =
        RunResult.ok (some false) ∧
      Event.log .error "prepare.sh not found! This script is required for environment setup."
        ∈ (setup_workspace ⟨false, 0, true, .mapping [], true, true, true, true, true⟩).1 ∧
      (setup_workspace ⟨false, 0, true, .mapping [], true, true, true, true, true⟩).1.filter
        Event.isRun = [] ∧
      Event.readConfigFile ∉
        (setup_workspace ⟨false, 0, true, .mapping [], true, true, true, true, true⟩).1 :=
  c7_missing_prepare_aborts ⟨false, 0, true, .mapping [], true, true, true, true, true⟩ rfl

/-- Claim C8: with prepare.sh present the environment check succeeds; when
no execute bit is set it chmods prepare.sh to mode 755, when some execute
bit is set the mode is left unchanged and no chmod happens, and a missing
.env file only yields a warning while the check still succeeds. -/
theorem c8_executable_fixup_and_env_warning (w : World) (hp : w.prepareExists = true) :
    (check_environment w).2.2 = true ∧
      (w.prepareMode &&& 0o111 = 0 →
        (check_environment w).2.1 = 0o755 ∧
          Event.chmod "prepare.sh" 0o755 ∈ (check_environment w).1) ∧
      (¬ w.prepareMode &&& 0o111 = 0 →
        (check_environment w).2.1 = w.prepareMode ∧
          (check_environment w).1.filter isChmodEvent = []) ∧
      (w.envExists = false →
        Event.log .warning ".env file not found!" ∈ (check_environment w).1) := by
  unfold check_environment
  by_cases hm : w.prepareMode &&& 0o111 = 0 <;>
    by_cases he : w.envExists = false <;>
      simp [hp, hm, he, isChmodEvent]

/-- Witness for claim C8 at a concrete world where prepare.sh has mode 644
and .env is absent. -/
theorem c8_witness :
    ((check_environment ⟨true, 0o644, false, .mapping [], true, true, true, true, true⟩).2.2 = true ∧
      ((0o644 : Nat) &&& 0o111 = 0 →
        (check_environment ⟨true, 0o644, false, .mapping [], true, true, true, true, true⟩).2.1 = 0o755 ∧
          Event.chmod "prepare.sh" 0o755 ∈
            (check_environment ⟨true, 0o644, false, .mapping [], true, true, true, true, true⟩).1) ∧
      (¬ (0o644 : Nat) &&& 0o111 = 0 →
        (check_environment ⟨true, 0o644, false, .mapping [], true, true, true, true, true⟩).2.1 = 0o644 ∧
          (check_environment ⟨true, 0o644, false, .mapping [], true, true, true, true, true⟩).1.filter
            isChmodEvent = []) ∧
      (false = false →
        Event.log .warning ".env file not found!" ∈
          (check_environment ⟨true, 0o644, false, .mapping [], true, true, true, true, true⟩).1)) :=
  c8_executable_fixup_and_env_warning
    ⟨true, 0o644, false, .mapping [], true, true, true, true, true⟩ rfl

/-- Claim C9: when the config parses as a mapping without the
official-packages key, reading it yields the empty list, the run is not
fatal (exit code 0), no package-manager invocation happens, and the build
step is still reached. -/
theorem c9_missing_key_not_fatal (w : World) (m : List (String × List String))
    (hp : w.prepareExists = true) (hc : w.config = ConfigFile.mapping m)
    (hk : m.find? (fun p => p.1 == "official-packages") = none) :
    (read_packages_config w).2 = RunResult.ok [] ∧
      (main w false).2 = 0 ∧
      (main w false).1.filter isAptEvent = [] ∧
      Event.run colconBuildCmd ∈ (main w false).1 := by
  have hm : dictGet m "official-packages" [] = [] := by
    simp [dictGet, hk]
  refine ⟨?_, ?_, ?_, ?_⟩
  · rw [read_packages_config_mapping w m hc, hm]
  · unfold main
    rw [setup_workspace_trace w m hp hc]
    rfl
  · unfold main
    rw [setup_workspace_trace w m hp hc, read_packages_config_mapping w m hc, hm]
    simp [List.filter_append, check_environment_apt_free, build_ws_apt_free,
      install_official_packages, isAptEvent_log, isAptEvent_readConfigFile]
  · unfold main
    rw [setup_workspace_trace w m hp hc]
    simp [build_ws_colcon_invoked w]

/-- Witness for claim C9 at a concrete world whose config mapping only has
an unrelated key. -/
theorem c9_witness :
    (read_packages_config ⟨true, 0o755, true, .mapping [("other", ["x"])],
        true, true, true, true, true⟩).2 = RunResult.ok [] ∧
      (main ⟨true, 0o755, true, .mapping [("other", ["x"])],
        true, true, true, true, true⟩ false).2 = 0 ∧
      (main ⟨true, 0o755, true, .mapping [("other", ["x"])],
        true, true, true, true, true⟩ false).1.filter isAptEvent = [] ∧
      Event.run colconBuildCmd ∈
        (main ⟨true, 0o755, true, .mapping [("other", ["x"])],
          true, true, true, true, true⟩ false).1 :=
  c9_missing_key_not_fatal
    ⟨true, 0o755, true, .mapping [("other", ["x"])], true, true, true, true, true⟩
    [("other", ["x"])] rfl rfl (by decide)

/-- Claim C10: for every non-empty package list, when the package-manager
update invocation fails, the update command was invoked but no install
invocation appears in the trace, and the installer returns False. -/
theorem c10_update_failure_blocks_install (w : World) (pkgs : List String)
    (hne : pkgs ≠ []) (hu : w.aptUpdateOk = false) :
    (install_official_packages w pkgs).2 = false ∧
      (install_official_packages w pkgs).1.filter isAptInstallEvent = [] ∧
      Event.run ["sudo", "apt", "update"] ∈ (install_official_packages w pkgs).1 := by
  have hne2 : pkgs.isEmpty = false := by
    cases pkgs with
    | nil => exact absurd rfl hne
    | cons a l => rfl
  unfold install_official_packages
  simp [hne2, hu, isAptInstallEvent_log, isAptInstallEvent_update]

/-- Witness for claim C10 at a concrete world where apt update fails with a
one-package list. -/
theorem c10_witness :
    (install_official_packages
        ⟨true, 0o755, true, .mapping [("official-packages", ["a"])], false, true, true, true, true⟩
        ["a"]).2 = false ∧
      (install_official_packages
        ⟨true, 0o755, true, .mapping [("official-packages", ["a"])], false, true, true, true, true⟩
        ["a"]).1.filter isAptInstallEvent = [] ∧
      Event.run ["sudo", "apt", "update"] ∈
        (install_official_packages
          ⟨true, 0o755, true, .mapping [("official-packages", ["a"])], false, true, true, true, true⟩
          ["a"]).1 :=
  c10_update_failure_blocks_install
    ⟨true, 0o755, true, .mapping [("official-packages", ["a"])], false, true, true, true, true⟩
    ["a"] (by decide) rfl

end AutoBuild
